import Mathlib

/-!
Shallow embedding of `src/assets/js/main.js` (client-side glue script for a
static site): DOM class lists are modelled as finite sets of class tokens,
the document as an association list from selector strings to elements with
rendered geometry, and each event handler as a pure function on that state.
-/

namespace OldCityLaundry

/-- A DOM element's class list. `classList.add/remove/toggle/contains` are
set operations on space-separated tokens, so a finite set of strings is the
faithful model. -/
abbrev ClassList := Finset String

/-- `el.classList.add c`: inserts the token if absent. -/
def classAdd (c : String) (s : ClassList) : ClassList := insert c s

/-- `el.classList.remove c`: deletes the token if present. -/
def classRemove (c : String) (s : ClassList) : ClassList := s.erase c

/-- `el.classList.toggle c`: removes the token when present, adds it when
absent. -/
def classToggle (c : String) (s : ClassList) : ClassList :=
  if c ∈ s then s.erase c else insert c s

/-- An element as observed by this script: vertical offset from the document
top and rendered height, in pixels. -/
structure Elem where
  offsetTop : Int
  offsetHeight : Int
deriving DecidableEq, Repr

instance : Inhabited Elem := ⟨⟨0, 0⟩⟩

/-- The document, as the script queries it: selector string to element.
`document.querySelector` returns the first match or null. -/
abbrev Document := List (String × Elem)

/-- The `select` utility (single-element form): first element matching the
selector, or absent. -/
def select (doc : Document) (sel : String) : Option Elem :=
  (doc.find? (fun p => p.1 == sel)).map Prod.snd

/-- The `scrollTo` helper: reads `#header`'s rendered height, the target's
offset from the document top, and requests a scroll to their difference.
Dereferencing an absent element is a runtime error. -/
def scrollTo (doc : Document) (el : String) : Except Unit Int :=
  match select doc "#header" with
  | none => Except.error ()
  | some header =>
    match select doc el with
    | none => Except.error ()
    | some target => Except.ok (target.offsetTop - header.offsetHeight)

/-- A navigation link captured by `select('#navbar .scrollto', true)`: its
hash fragment (empty when the anchor has none) and its class list. -/
structure NavLink where
  hash : String
  classes : ClassList
deriving DecidableEq

instance : Inhabited NavLink := ⟨⟨"", ∅⟩⟩

/-- Body of the `forEach` in `navbarlinksActive`: links with an empty hash
or an unresolvable section are skipped; otherwise the active marker is added
when `position` lies in `[offsetTop, offsetTop + offsetHeight]` and removed
otherwise. -/
def navbarlinkUpdate (doc : Document) (position : Int) (link : NavLink) : NavLink :=
  if link.hash = "" then link
  else
    match select doc link.hash with
    | none => link
    | some sec =>
      if sec.offsetTop ≤ position ∧ position ≤ sec.offsetTop + sec.offsetHeight then
        { link with classes := classAdd "active" link.classes }
      else
        { link with classes := classRemove "active" link.classes }

/-- The `navbarlinksActive` scroll handler: `position = scrollY + 200`, then
each captured navigation link is updated independently. -/
def navbarlinksActive (doc : Document) (scrollY : Int) (links : List NavLink) : List NavLink :=
  links.map (navbarlinkUpdate doc (scrollY + 200))

/-- The `headerScrolled` scroll handler: above a 100px offset the scrolled
markers are added to the header and the topbar, otherwise removed; the
optional-chaining calls make an absent element a no-op. -/
def headerScrolled (scrollY : Int) (header topbar : Option ClassList) :
    Option ClassList × Option ClassList :=
  if scrollY > 100 then
    (header.map (classAdd "header-scrolled"), topbar.map (classAdd "topbar-scrolled"))
  else
    (header.map (classRemove "header-scrolled"), topbar.map (classRemove "topbar-scrolled"))

/-- The `toggleBacktotop` scroll handler: guards on presence, then the same
100px threshold drives the active marker. -/
def toggleBacktotop (scrollY : Int) (backtotop : Option ClassList) : Option ClassList :=
  match backtotop with
  | none => none
  | some b =>
    if scrollY > 100 then some (classAdd "active" b) else some (classRemove "active" b)

/-- A generated carousel indicator: its `data-bs-slide-to` ordinal and class
list. -/
structure Indicator where
  slideTo : Nat
  classes : ClassList
deriving DecidableEq

instance : Inhabited Indicator := ⟨⟨0, ∅⟩⟩

/-- The indicator markup built for slide `index` in `initCarouselIndicators`:
only index 0 gets the active class. -/
def mkIndicator (index : Nat) : Indicator :=
  if index = 0 then { slideTo := index, classes := {"active"} }
  else { slideTo := index, classes := ∅ }

/-- The `forEach` loop of `initCarouselIndicators`: each iteration appends
one indicator to the host's content via `innerHTML +=`; when the host is
absent, the first iteration dereferences null and errors. -/
def appendIndicators (host : Option (List Indicator)) :
    List Nat → Except Unit (Option (List Indicator))
  | [] => Except.ok host
  | i :: rest =>
    match host with
    | none => Except.error ()
    | some content => appendIndicators (some (content ++ [mkIndicator i])) rest

/-- `initCarouselIndicators` over `numItems` carousel slide elements. -/
def initCarouselIndicators (host : Option (List Indicator)) (numItems : Nat) :
    Except Unit (Option (List Indicator)) :=
  appendIndicators host (List.range numItems)

/-- A menu filter control: its `data-filter` attribute (absent attributes
read as null) and its class list. -/
structure MenuFilter where
  dataFilter : Option String
  classes : ClassList
deriving DecidableEq

instance : Inhabited MenuFilter := ⟨⟨none, ∅⟩⟩

/-- Clearing step of the filter click handler: remove the active-filter
marker. -/
def clearFilterActive (f : MenuFilter) : MenuFilter :=
  { f with classes := classRemove "filter-active" f.classes }

/-- The menu filter click handler in `initMenuIsotope`, with the clicked
control given as its index among the captured controls: the active-filter
marker is removed from every captured control, added to the clicked one, and
`arrange` is invoked once with the clicked control's `data-filter` attribute.
Returns the updated controls and the list of `arrange` filter arguments. -/
def menuFilterClick (filters : List MenuFilter) (k : Fin filters.length) :
    List MenuFilter × List (Option String) :=
  ((filters.map clearFilterActive).set k
      { filters.get k with
        classes := classAdd "filter-active" (classRemove "filter-active" (filters.get k).classes) },
   [(filters.get k).dataFilter])

/-- The mobile nav toggle click handler in `initNavbar`: toggles the
mobile-mode marker on the navbar and toggles both icon classes on the
control itself. -/
def mobileNavToggleClick (navbar toggleBtn : ClassList) : ClassList × ClassList :=
  (classToggle "navbar-mobile" navbar,
   classToggle "bi-x" (classToggle "bi-list" toggleBtn))

/-- The dropdown-parent link click handler in `initNavbar`: in mobile mode
it prevents default navigation and toggles the submenu's active marker;
otherwise it does nothing. Returns (defaultPrevented, submenu classes). -/
def dropdownClick (navbar submenu : ClassList) : Bool × ClassList :=
  if "navbar-mobile" ∈ navbar then (true, classToggle "dropdown-active" submenu)
  else (false, submenu)

/-- The steps the window load handler can perform, in source order, plus the
final hash scroll. -/
inductive InitStep where
  | navbar
  | scrollFunctions
  | carouselIndicators
  | menuIsotope
  | swipers
  | glightbox
  | hashScroll
deriving DecidableEq, Repr

/-- The fixed order of initializer calls in the window load handler. -/
def initOrder : List InitStep :=
  [.navbar, .scrollFunctions, .carouselIndicators, .menuIsotope, .swipers, .glightbox]

/-- Straight-line execution of a call sequence where any call may throw:
returns the completed calls and whether the sequence ran to the end. A
throwing call completes nothing and aborts the rest. -/
def runInitSeq (throws : InitStep → Bool) : List InitStep → List InitStep × Bool
  | [] => ([], true)
  | s :: rest =>
    if throws s then ([], false)
    else
      let r := runInitSeq throws rest
      (s :: r.1, r.2)

/-- The window load handler: run the six initializers in order; only if all
complete, and the URL carries a nonempty fragment whose target element
exists, invoke the smooth-scroll helper once for it. Returns the trace of
completed steps. -/
def loadHandler (throws : InitStep → Bool) (hash : String) (targetExists : String → Bool) :
    List InitStep :=
  let r := runInitSeq throws initOrder
  if r.2 then
    if hash ≠ "" then
      if targetExists hash then r.1 ++ [.hashScroll] else r.1
    else r.1
  else r.1

/-- Whether a captured navigation link's target section exists and its span
contains the given position (the condition under which the handler adds the
active marker). -/
def linkCoversPosition (doc : Document) (position : Int) (link : NavLink) : Bool :=
  match select doc link.hash with
  | none => false
  | some s => decide (s.offsetTop ≤ position ∧ position ≤ s.offsetTop + s.offsetHeight)

/-- The active-link claim exactly as stated: after the handler runs, a
captured link carries the active marker if and only if its target section's
span contains `scrollY + 200`. -/
def claimC1Stated (doc : Document) (scrollY : Int) (links : List NavLink) : Prop :=
  ∀ link ∈ links,
    ("active" ∈ (navbarlinkUpdate doc (scrollY + 200) link).classes ↔
      linkCoversPosition doc (scrollY + 200) link = true)

instance claimC1StatedDecidable (doc : Document) (y : Int) (links : List NavLink) :
    Decidable (claimC1Stated doc y links) := by
  unfold claimC1Stated; infer_instance

/-- Token membership after a `classList.toggle`. -/
theorem mem_classToggle (a c : String) (s : ClassList) :
    a ∈ classToggle c s ↔ (if a = c then c ∉ s else a ∈ s) := by
  unfold classToggle
  by_cases hcs : c ∈ s <;> by_cases hac : a = c <;>
    simp [hcs, hac, Finset.mem_erase, Finset.mem_insert]

/-- `classList.toggle` twice with the same token is the identity. -/
theorem classToggle_classToggle (c : String) (s : ClassList) :
    classToggle c (classToggle c s) = s := by
  ext a
  by_cases hac : a = c <;> by_cases hcs : c ∈ s <;>
    simp [mem_classToggle, hac, hcs]

/-- Toggles of distinct tokens commute. -/
theorem classToggle_comm (c d : String) (h : c ≠ d) (s : ClassList) :
    classToggle c (classToggle d s) = classToggle d (classToggle c s) := by
  ext a
  by_cases hac : a = c <;> by_cases had : a = d <;>
    simp [mem_classToggle, hac, had, h, h.symm]

/-- The scroll handler acts on the link at index `i` through
`navbarlinkUpdate` alone. -/
theorem getD_navbarlinksActive (doc : Document) (scrollY : Int) (links : List NavLink)
    (i : Nat) :
    (navbarlinksActive doc scrollY links).getD i default
      = navbarlinkUpdate doc (scrollY + 200) (links.getD i default) := by
  unfold navbarlinksActive
  rw [List.getD_eq_getD_get?, List.getD_eq_getD_get?, List.get?_map]
  cases h : links.get? i <;> rfl

/-- C1 (counterexample): the claim as stated fails, because a captured link
whose hash is empty (hence has no target section) keeps a pre-existing
active marker, while the claim demands the marker be absent on every link
not covering the position. -/
theorem claim_C1_counterexample :
    ¬ claimC1Stated [] 0 [{ hash := "", classes := {"active"} }] := by decide

/-- C1 (amended): for every captured navigation link whose hash is nonempty
and resolves to an existing section, after the scroll handler runs the link
carries the active marker iff the section's span `[offsetTop,
offsetTop + offsetHeight]` contains `scrollY + 200` (links with an empty or
unresolvable hash are skipped). -/
theorem claim_C1 (doc : Document) (scrollY : Int) (links : List NavLink) (i : Nat)
    (s : Elem) (hhash : (links.getD i default).hash ≠ "")
    (hsel : select doc (links.getD i default).hash = some s) :
    ("active" ∈ ((navbarlinksActive doc scrollY links).getD i default).classes ↔
      (s.offsetTop ≤ scrollY + 200 ∧ scrollY + 200 ≤ s.offsetTop + s.offsetHeight)) := by
  rw [getD_navbarlinksActive]
  simp only [navbarlinkUpdate, if_neg hhash, hsel]
  by_cases hc : s.offsetTop ≤ scrollY + 200 ∧ scrollY + 200 ≤ s.offsetTop + s.offsetHeight
  · simp [if_pos hc, classAdd, hc]
  · simp [if_neg hc, classRemove, hc]

/-- C1 witness: section `#about` spans `[400, 900]`; at `scrollY = 250` the
position `450` is inside, so the link is marked active. -/
theorem claim_C1_witness :
    "active" ∈ ((navbarlinksActive [("#about", ⟨400, 500⟩)] 250
        [{ hash := "#about", classes := ∅ }]).getD 0 default).classes ↔
      ((400 : Int) ≤ 250 + 200 ∧ (250 : Int) + 200 ≤ 400 + 500) :=
  claim_C1 [("#about", ⟨400, 500⟩)] 250 [{ hash := "#about", classes := ∅ }] 0
    ⟨400, 500⟩ (by decide) rfl

/-- C9: a captured link whose hash is empty, or whose hash does not resolve
to an existing section, is left entirely unchanged by the active-link scroll
handler. -/
theorem claim_C9 (doc : Document) (scrollY : Int) (links : List NavLink) (i : Nat)
    (h : (links.getD i default).hash = "" ∨ select doc (links.getD i default).hash = none) :
    (navbarlinksActive doc scrollY links).getD i default = links.getD i default := by
  rw [getD_navbarlinksActive]
  unfold navbarlinkUpdate
  rcases h with h | h
  · rw [if_pos h]
  · by_cases h0 : (links.getD i default).hash = ""
    · rw [if_pos h0]
    · rw [if_neg h0, h]

/-- C9 witness: a link with an unresolvable hash keeps its class set. -/
theorem claim_C9_witness :
    (navbarlinksActive [] 500 [{ hash := "#missing", classes := {"active"} }]).getD 0 default
      = { hash := "#missing", classes := {"active"} } :=
  claim_C9 [] 500 [{ hash := "#missing", classes := {"active"} }] 0 (Or.inr rfl)

/-- C2: after the scroll handlers run, the header-scrolled, topbar-scrolled
and back-to-top active markers are present iff `scrollY > 100`, and each
toggle is a no-op (not an error) when its element is absent. -/
theorem claim_C2 (scrollY : Int) (hcl tcl bcl : ClassList) (hd tb : Option ClassList) :
    (∃ h, (headerScrolled scrollY (some hcl) tb).1 = some h ∧
        ("header-scrolled" ∈ h ↔ scrollY > 100)) ∧
    (∃ t, (headerScrolled scrollY hd (some tcl)).2 = some t ∧
        ("topbar-scrolled" ∈ t ↔ scrollY > 100)) ∧
    (∃ b, toggleBacktotop scrollY (some bcl) = some b ∧
        ("active" ∈ b ↔ scrollY > 100)) ∧
    (headerScrolled scrollY none tb).1 = none ∧
    (headerScrolled scrollY hd none).2 = none ∧
    toggleBacktotop scrollY none = none := by
  unfold headerScrolled toggleBacktotop
  by_cases hy : scrollY > 100 <;>
    simp [hy, classAdd, classRemove, Finset.not_mem_erase]

/-- C5: when `#header` exists with rendered height `h` and the target
exists at offset `t`, the smooth-scroll helper requests destination
`t - h`. -/
theorem claim_C5 (doc : Document) (el : String) (header target : Elem)
    (hh : select doc "#header" = some header) (ht : select doc el = some target) :
    scrollTo doc el = Except.ok (target.offsetTop - header.offsetHeight) := by
  unfold scrollTo
  rw [hh, ht]

/-- C5 witness: header of height 80, target `#about` at offset 400; the
requested destination is 320. -/
theorem claim_C5_witness :
    scrollTo [("#header", ⟨0, 80⟩), ("#about", ⟨400, 500⟩)] "#about"
      = Except.ok ((400 : Int) - 80) :=
  claim_C5 [("#header", ⟨0, 80⟩), ("#about", ⟨400, 500⟩)] "#about" ⟨0, 80⟩ ⟨400, 500⟩ rfl rfl

/-- C8: clicking a dropdown-parent link prevents default navigation and
flips the submenu's active marker exactly when the navbar carries the
mobile-mode marker; otherwise nothing is prevented and the submenu is
unchanged. -/
theorem claim_C8 (navbar submenu : ClassList) :
    ("navbar-mobile" ∈ navbar →
      (dropdownClick navbar submenu).1 = true ∧
      ("dropdown-active" ∈ (dropdownClick navbar submenu).2 ↔ "dropdown-active" ∉ submenu)) ∧
    ("navbar-mobile" ∉ navbar →
      (dropdownClick navbar submenu).1 = false ∧
      (dropdownClick navbar submenu).2 = submenu) := by
  unfold dropdownClick
  by_cases hm : "navbar-mobile" ∈ navbar <;> simp [hm, mem_classToggle]

/-- C8 witness: in mobile mode, with the submenu initially inactive, the
click prevents default and activates the submenu. -/
theorem claim_C8_witness :
    (dropdownClick {"navbar-mobile"} ∅).1 = true ∧
    ("dropdown-active" ∈ (dropdownClick {"navbar-mobile"} ∅).2 ↔
      "dropdown-active" ∉ (∅ : ClassList)) :=
  (claim_C8 {"navbar-mobile"} ∅).1 (by decide)

/-- C6: when the toggle control carries exactly one of the two icon markers,
a click flips the navbar's mobile-mode marker and swaps which icon marker is
present, and a second click restores both class states exactly. -/
theorem claim_C6 (navbar toggleBtn : ClassList)
    (_hone : ("bi-list" ∈ toggleBtn ∧ "bi-x" ∉ toggleBtn) ∨
      ("bi-list" ∉ toggleBtn ∧ "bi-x" ∈ toggleBtn)) :
    ("navbar-mobile" ∈ (mobileNavToggleClick navbar toggleBtn).1 ↔
      "navbar-mobile" ∉ navbar) ∧
    ("bi-list" ∈ (mobileNavToggleClick navbar toggleBtn).2 ↔ "bi-list" ∉ toggleBtn) ∧
    ("bi-x" ∈ (mobileNavToggleClick navbar toggleBtn).2 ↔ "bi-x" ∉ toggleBtn) ∧
    mobileNavToggleClick (mobileNavToggleClick navbar toggleBtn).1
        (mobileNavToggleClick navbar toggleBtn).2 = (navbar, toggleBtn) := by
  unfold mobileNavToggleClick
  refine ⟨by simp [mem_classToggle], by simp [mem_classToggle], by simp [mem_classToggle], ?_⟩
  rw [classToggle_classToggle,
    classToggle_comm "bi-list" "bi-x" (by decide) (classToggle "bi-list" toggleBtn),
    classToggle_classToggle, classToggle_classToggle]

/-- C6 witness: from icon state `bi-list` only, one click flips all three
markers and a second click restores the original state. -/
theorem claim_C6_witness :
    ("navbar-mobile" ∈ (mobileNavToggleClick ∅ {"bi-list"}).1 ↔
      "navbar-mobile" ∉ (∅ : ClassList)) ∧
    ("bi-list" ∈ (mobileNavToggleClick ∅ {"bi-list"}).2 ↔
      "bi-list" ∉ ({"bi-list"} : ClassList)) ∧
    ("bi-x" ∈ (mobileNavToggleClick ∅ {"bi-list"}).2 ↔
      "bi-x" ∉ ({"bi-list"} : ClassList)) ∧
    mobileNavToggleClick (mobileNavToggleClick ∅ {"bi-list"}).1
        (mobileNavToggleClick ∅ {"bi-list"}).2 = (∅, {"bi-list"}) :=
  claim_C6 ∅ {"bi-list"} (Or.inl (by decide))

/-- Running the indicator loop from a present host appends one indicator per
visited index. -/
theorem appendIndicators_ok (l : List Nat) (content : List Indicator) :
    appendIndicators (some content) l = Except.ok (some (content ++ l.map mkIndicator)) := by
  induction l generalizing content with
  | nil => simp [appendIndicators]
  | cons i rest ih => simp [appendIndicators, ih]

/-- The indicator built for slide `i` carries ordinal `i`, and the active
marker exactly when `i = 0`. -/
theorem mkIndicator_spec (i : Nat) :
    (mkIndicator i).slideTo = i ∧ ("active" ∈ (mkIndicator i).classes ↔ i = 0) := by
  by_cases h0 : i = 0 <;> simp [mkIndicator, h0]

/-- C3: with the host present holding `content`, the builder run over `n`
slides appends exactly `n` indicators in slide order; the appended indicator
at ordinal `i` targets slide `i` and carries the active marker iff `i = 0`. -/
theorem claim_C3 (content : List Indicator) (n i : Nat) (hi : i < n) :
    initCarouselIndicators (some content) n
      = Except.ok (some (content ++ (List.range n).map mkIndicator)) ∧
    ((List.range n).map mkIndicator).length = n ∧
    (((List.range n).map mkIndicator).getD i default).slideTo = i ∧
    ("active" ∈ (((List.range n).map mkIndicator).getD i default).classes ↔ i = 0) := by
  have hget : ((List.range n).map mkIndicator).getD i default = mkIndicator i := by
    rw [List.getD_eq_getD_get?, List.get?_map, List.get?_range hi]
    rfl
  refine ⟨appendIndicators_ok _ _, by simp, ?_, ?_⟩
  · rw [hget]; exact (mkIndicator_spec i).1
  · rw [hget]; exact (mkIndicator_spec i).2

/-- C3 witness: two slides yield two indicators, ordinal 1 inactive. -/
theorem claim_C3_witness :
    initCarouselIndicators (some []) 2
      = Except.ok (some ([] ++ (List.range 2).map mkIndicator)) ∧
    ((List.range 2).map mkIndicator).length = 2 ∧
    (((List.range 2).map mkIndicator).getD 1 default).slideTo = 1 ∧
    ("active" ∈ (((List.range 2).map mkIndicator).getD 1 default).classes ↔ 1 = 0) :=
  claim_C3 [] 2 1 (by decide)

/-- C10: with at least one slide and the indicator host absent, the builder
dereferences the absent host and errors, whereas the header/topbar and
back-to-top toggles treat an absent element as a no-op. -/
theorem claim_C10 (n : Nat) (scrollY : Int) (hn : 0 < n) :
    initCarouselIndicators none n = Except.error () ∧
    headerScrolled scrollY none none = (none, none) ∧
    toggleBacktotop scrollY none = none := by
  refine ⟨?_, ?_, rfl⟩
  · obtain ⟨m, rfl⟩ : ∃ m, n = m + 1 := ⟨n - 1, by omega⟩
    unfold initCarouselIndicators
    rw [List.range_succ_eq_map]
    rfl
  · unfold headerScrolled
    by_cases hy : scrollY > 100 <;> simp [hy]

/-- C10 witness: one slide, absent host, the builder errors; the toggles at
`scrollY = 0` stay no-ops. -/
theorem claim_C10_witness :
    initCarouselIndicators none 1 = Except.error () ∧
    headerScrolled 0 none none = (none, none) ∧
    toggleBacktotop 0 none = none :=
  claim_C10 1 0 (by decide)

/-- C4: clicking the filter control at index `k` leaves the active-filter
marker on that control alone among the captured controls, preserves the
number of controls, and invokes `arrange` exactly once, with exactly the
clicked control's `data-filter` attribute. -/
theorem claim_C4 (filters : List MenuFilter) (k i : Nat)
    (hk : k < filters.length) (_hi : i < filters.length) :
    (menuFilterClick filters ⟨k, hk⟩).1.length = filters.length ∧
    ("filter-active" ∈ ((menuFilterClick filters ⟨k, hk⟩).1.getD i default).classes ↔ i = k) ∧
    (menuFilterClick filters ⟨k, hk⟩).2 = [(filters.get ⟨k, hk⟩).dataFilter] := by
  refine ⟨by simp [menuFilterClick], ?_, rfl⟩
  unfold menuFilterClick
  by_cases hik : i = k
  · subst hik
    rw [List.getD_eq_getD_get?,
      List.get?_set_eq_of_lt _ (by simpa using hk)]
    simp [classAdd]
  · rw [List.getD_eq_getD_get?, List.get?_set_ne _ _ (fun h => hik h.symm),
      ← List.getD_eq_getD_get?]
    have hd : (default : MenuFilter) = clearFilterActive default := rfl
    rw [hd, List.getD_map]
    simp [hik, clearFilterActive, classRemove, Finset.not_mem_erase]

/-- C4 witness: clicking the second of two controls moves the marker there
and arranges with its filter expression. -/
theorem claim_C4_witness :
    (menuFilterClick [⟨some "*", {"filter-active"}⟩, ⟨some ".drycleaning", ∅⟩]
        ⟨1, by decide⟩).1.length = 2 ∧
    ("filter-active" ∈ ((menuFilterClick [⟨some "*", {"filter-active"}⟩,
        ⟨some ".drycleaning", ∅⟩] ⟨1, by decide⟩).1.getD 0 default).classes ↔ 0 = 1) ∧
    (menuFilterClick [⟨some "*", {"filter-active"}⟩, ⟨some ".drycleaning", ∅⟩]
        ⟨1, by decide⟩).2
      = [(([⟨some "*", {"filter-active"}⟩, ⟨some ".drycleaning", ∅⟩] :
          List MenuFilter).get ⟨1, by decide⟩).dataFilter] :=
  claim_C4 [⟨some "*", {"filter-active"}⟩, ⟨some ".drycleaning", ∅⟩] 1 0
    (by decide) (by decide)

/-- When no call throws, the whole sequence completes in order. -/
theorem runInitSeq_all_ok (throws : InitStep → Bool) (l : List InitStep)
    (h : ∀ s, throws s = false) : runInitSeq throws l = (l, true) := by
  induction l with
  | nil => rfl
  | cons s rest ih => simp [runInitSeq, h s, ih]

/-- When the call at index `i` is the first to throw, exactly the calls
before it complete and the sequence aborts. -/
theorem runInitSeq_first_fail (throws : InitStep → Bool) (l : List InitStep) (i : Nat)
    (hi : i < l.length) (hf : throws (l.getD i .navbar) = true)
    (hbefore : ∀ j, j < i → throws (l.getD j .navbar) = false) :
    runInitSeq throws l = (l.take i, false) := by
  induction l generalizing i with
  | nil => simp at hi
  | cons s rest ih =>
    cases i with
    | zero => simp_all [runInitSeq]
    | succ i =>
      have hs : throws s = false := hbefore 0 (Nat.succ_pos i)
      have hrest := ih i (by simpa using hi) (by simpa using hf)
        (fun j hj => by simpa using hbefore (j + 1) (by omega))
      simp [runInitSeq, hs, hrest, List.take_succ_cons]

/-- C7: when no initializer throws, the load handler runs the six
initializers in the fixed source order and then performs the hash scroll
exactly once iff the URL fragment is nonempty and its target exists; when
the initializer at index `i` is the first to throw, only the initializers
before it run and the hash scroll never happens. -/
theorem claim_C7 (throws : InitStep → Bool) (hash : String)
    (targetExists : String → Bool) (i : Nat) :
    ((∀ s, throws s = false) →
      loadHandler throws hash targetExists =
        initOrder ++
          (if hash ≠ "" ∧ targetExists hash = true then [InitStep.hashScroll] else []) ∧
      (loadHandler throws hash targetExists).count InitStep.hashScroll =
        (if hash ≠ "" ∧ targetExists hash = true then 1 else 0)) ∧
    (i < initOrder.length →
      throws (initOrder.getD i .navbar) = true →
      (∀ j, j < i → throws (initOrder.getD j .navbar) = false) →
      loadHandler throws hash targetExists = initOrder.take i ∧
        InitStep.hashScroll ∉ loadHandler throws hash targetExists) := by
  constructor
  · intro hok
    have htr : loadHandler throws hash targetExists =
        initOrder ++
          (if hash ≠ "" ∧ targetExists hash = true then [InitStep.hashScroll] else []) := by
      unfold loadHandler
      rw [runInitSeq_all_ok throws initOrder hok]
      by_cases h1 : hash = "" <;> by_cases h2 : targetExists hash = true <;>
        simp [h1, h2]
    refine ⟨htr, ?_⟩
    rw [htr, List.count_append]
    have h0 : initOrder.count InitStep.hashScroll = 0 := by decide
    rw [h0]
    by_cases hc : hash ≠ "" ∧ targetExists hash = true <;> simp [hc]
  · intro hi hf hbefore
    have htr : loadHandler throws hash targetExists = initOrder.take i := by
      unfold loadHandler
      rw [runInitSeq_first_fail throws initOrder i hi hf hbefore]
      simp
    refine ⟨htr, ?_⟩
    rw [htr]
    intro hmem
    exact absurd (List.take_subset i initOrder hmem) (by decide)

/-- C7 witness: with nothing throwing and fragment `#about` resolvable, the
trace is the six initializers then one hash scroll; when the menu-filter
initializer (index 3) is the first to throw, only the first three
initializers run and no hash scroll happens. -/
theorem claim_C7_witness :
    (loadHandler (fun _ => false) "#about" (fun _ => true) =
        initOrder ++
          (if "#about" ≠ "" ∧ (fun (_ : String) => true) "#about" = true
            then [InitStep.hashScroll] else []) ∧
      (loadHandler (fun _ => false) "#about" (fun _ => true)).count InitStep.hashScroll =
        (if "#about" ≠ "" ∧ (fun (_ : String) => true) "#about" = true then 1 else 0)) ∧
    (loadHandler (fun s => s == InitStep.menuIsotope) "#about" (fun _ => true) =
        initOrder.take 3 ∧
      InitStep.hashScroll ∉
        loadHandler (fun s => s == InitStep.menuIsotope) "#about" (fun _ => true)) :=
  ⟨(claim_C7 (fun _ => false) "#about" (fun _ => true) 0).1 (fun _ => rfl),
   (claim_C7 (fun s => s == InitStep.menuIsotope) "#about" (fun _ => true) 3).2
     (by decide) (by decide) (by decide)⟩

end OldCityLaundry
